import Mathlib

/-!
# Verification of the frame-paced screen-capture loop (`src/record.py`)

This file is a shallow embedding of `record_screen` from `src/record.py`:

* Time is modelled as `ℚ` (seconds).
* The external collaborators (monitor resolution via `mss`, the
  `cv2.VideoWriter` sink, `sct.grab`) are opaque library calls; following the
  interface contracts in the specification (§6) they are modelled as oracle
  inputs in `Env`: a per-tick success bit for the grab and for the write, a
  success bit for each of the two initialization steps, and a per-tick wall
  clock cost of one capture+convert+write cycle.
* The global `stop_flag` (`threading.Event`) is set once by the controlling
  thread; the loop polls it, so it is modelled by the absolute time
  `Env.stopTime` from which the flag reads as set.
* The `while` loop is embedded as a fuel-indexed recursion `loopRun`; an
  uncaught Python exception raised inside the loop body is modelled by the
  `LoopOutcome.errored` result, which — exactly as in the source, where
  `out.release()` (line 54) sits after the loop with no `try/finally` —
  bypasses the release of the writer.
-/

set_option maxRecDepth 40000

namespace Record

/-- Source constant `FPS = 20` (record.py line 11); the spec treats the rate
as a configuration parameter, so `Env` below carries it as a field. -/
def FPS : ℚ := 20

/-- The fixed idle wait `time.sleep(0.001)` (record.py line 52), in seconds. -/
def sleepQuantum : ℚ := 1 / 1000

/-- One pixel of the raw capture, in the BGRA layout produced by
`np.array(sct.grab(monitor))` (record.py line 40). -/
structure PixelBGRA where
  b : ℕ
  g : ℕ
  r : ℕ
  a : ℕ

/-- One pixel in the writer's BGR layout. -/
structure PixelBGR where
  b : ℕ
  g : ℕ
  r : ℕ

/-- A raw captured image: dimensions plus a pixel grid (row, column). -/
structure RawImage where
  width : ℕ
  height : ℕ
  pix : ℕ → ℕ → PixelBGRA

/-- A frame in the layout accepted by the writer. -/
structure FrameBGR where
  width : ℕ
  height : ℕ
  pix : ℕ → ℕ → PixelBGR

/-- `cv2.cvtColor(img, cv2.COLOR_BGRA2BGR)` (record.py line 41): keep the
B, G, R channels of every pixel and drop the alpha channel. -/
def cvtColorBGRA2BGR (img : RawImage) : FrameBGR :=
  { width := img.width
    height := img.height
    pix := fun y x =>
      { b := (img.pix y x).b, g := (img.pix y x).g, r := (img.pix y x).r } }

/-- The deadline update performed after a frame is written
(record.py lines 44–49):

```python
next_frame_time += frame_interval
if current_time - next_frame_time > frame_interval:
    next_frame_time = current_time
```
-/
def updateDeadline (current deadline interval : ℚ) : ℚ :=
  let nextFrameTime := deadline + interval
  if current - nextFrameTime > interval then current else nextFrameTime

/-- The mutable state of the capture loop: the wall clock, the pacing
deadline `next_frame_time`, the times at which frames were appended to the
writer so far, and the number of capture ticks attempted so far (used to
index the per-tick oracles of `Env`). -/
structure LoopState where
  time : ℚ
  deadline : ℚ
  writes : List ℚ
  ticks : ℕ
deriving DecidableEq

/-- A Python exception escaping the loop body: a capture failure from
`sct.grab` (spec: `CaptureReadError`) or a write failure from `out.write`
(spec: `WriteError`), tagged with the tick on which it happened. -/
inductive LoopErr where
  | captureRead (tick : ℕ)
  | writeErr (tick : ℕ)
deriving DecidableEq

/-- How a run of the `while` loop ends: the stop flag was observed
(`stopped`), an exception escaped the body (`errored`), or the simulation
fuel ran out with the loop still going (`outOfFuel`). -/
inductive LoopOutcome where
  | stopped (s : LoopState)
  | errored (e : LoopErr) (s : LoopState)
  | outOfFuel (s : LoopState)
deriving DecidableEq

/-- The environment of one invocation of `record_screen`: the outcomes of
the opaque library calls and the externally controlled quantities.
`monitorOk` is the success of resolving `sct.monitors[1]` (line 19);
`writerOk` the success of opening the `cv2.VideoWriter` sink (line 28),
fallible per the spec's `open_writer` interface; `grabOk n` / `writeOk n`
whether `sct.grab` / `out.write` succeed on tick `n`; `tickCost n` the wall
clock spent by the capture+convert+write of tick `n`; `stopTime` the time
from which `stop_flag.is_set()` returns true; `rate` the configured frame
rate (`FPS` in the source). -/
structure Env where
  monitorOk : Bool
  writerOk : Bool
  startTime : ℚ
  stopTime : ℚ
  grabOk : ℕ → Bool
  writeOk : ℕ → Bool
  tickCost : ℕ → ℚ
  rate : ℚ

/-- The `while` loop of record.py lines 35–52, with `I` the value of
`frame_interval`.  Each iteration polls the stop flag once, reads the clock,
and either performs a capture tick (when `current_time >= next_frame_time`)
or sleeps for `sleepQuantum`.  A failing grab or write raises, ending the
run in `errored` with the state unchanged, exactly as an uncaught exception
leaves the loop. -/
def loopRun (I : ℚ) (env : Env) : ℕ → LoopState → LoopOutcome
  | 0, s => .outOfFuel s
  | fuel + 1, s =>
    if env.stopTime ≤ s.time then
      .stopped s
    else if s.deadline ≤ s.time then
      if env.grabOk s.ticks then
        if env.writeOk s.ticks then
          loopRun I env fuel
            { time := s.time + env.tickCost s.ticks
              deadline := updateDeadline s.time s.deadline I
              writes := s.writes ++ [s.time]
              ticks := s.ticks + 1 }
        else .errored (.writeErr s.ticks) s
      else .errored (.captureRead s.ticks) s
    else
      loopRun I env fuel { s with time := s.time + sleepQuantum }

/-- The loop state built by record.py lines 32–33:
`frame_interval = 1.0 / FPS` is passed to `loopRun` separately, and
`next_frame_time = time.time()` is the clock read at initialization. -/
def initState (env : Env) : LoopState :=
  { time := env.startTime, deadline := env.startTime, writes := [], ticks := 0 }

/-- The state a `LoopOutcome` carries. -/
def finalState : LoopOutcome → LoopState
  | .stopped s => s
  | .errored _ s => s
  | .outOfFuel s => s

/-- How one invocation of `record_screen` ends. -/
inductive RecOutcome where
  | initCaptureErr
  | initWriterErr
  | finished (s : LoopState)
  | aborted (e : LoopErr) (s : LoopState)
  | outOfFuel (s : LoopState)
deriving DecidableEq

/-- On a normal loop exit `out.release()` runs (record.py line 54); an
exception escaping the loop propagates out of `record_screen` without
reaching the release. -/
def liftLoop : LoopOutcome → RecOutcome
  | .stopped s => .finished s
  | .errored e s => .aborted e s
  | .outOfFuel s => .outOfFuel s

/-- `record_screen` (record.py lines 17–55): resolve the monitor, open the
writer sized to it, initialize the pacing state, run the loop, and release
the writer on the normal exit path only. -/
def record_screen (env : Env) (fuel : ℕ) : RecOutcome :=
  if env.monitorOk then
    if env.writerOk then
      liftLoop (loopRun (1 / env.rate) env fuel (initState env))
    else .initWriterErr
  else .initCaptureErr

/-- How many times the writer resource was acquired during the invocation. -/
def writerOpens : RecOutcome → ℕ
  | .initCaptureErr => 0
  | .initWriterErr => 0
  | .finished _ => 1
  | .aborted _ _ => 1
  | .outOfFuel _ => 1

/-- How many times `out.release()` ran during the invocation. -/
def writerCloses : RecOutcome → ℕ
  | .initCaptureErr => 0
  | .initWriterErr => 0
  | .finished _ => 1
  | .aborted _ _ => 0
  | .outOfFuel _ => 0

/-- How many frames the invocation appended to the writer. -/
def framesWritten : RecOutcome → ℕ
  | .initCaptureErr => 0
  | .initWriterErr => 0
  | .finished s => s.writes.length
  | .aborted _ s => s.writes.length
  | .outOfFuel s => s.writes.length

/-! ## Concrete environments used in the theorems below -/

/-- A benign environment: both init steps succeed, every grab and write
succeeds, ticks are instantaneous, rate 10, stop requested at t = 100 s. -/
def envSimple : Env :=
  { monitorOk := true, writerOk := true, startTime := 0, stopTime := 100
    grabOk := fun _ => true, writeOk := fun _ => true
    tickCost := fun _ => 0, rate := 10 }

/-- A benign environment whose stop flag is already set when the loop
starts, so the very first iteration observes it and exits. -/
def envStop : Env :=
  { monitorOk := true, writerOk := true, startTime := 0, stopTime := 0
    grabOk := fun _ => true, writeOk := fun _ => true
    tickCost := fun _ => 0, rate := 10 }

/-- The stall scenario of the spec (§8): rate 10 (interval 100 ms), tick 0's
capture+write takes 500 ms (five intervals), every later tick takes the
nominal 1 ms, stop at t = 1 s. -/
def stallEnv : Env :=
  { monitorOk := true, writerOk := true, startTime := 0, stopTime := 1
    grabOk := fun _ => true, writeOk := fun _ => true
    tickCost := fun n => if n = 0 then 1/2 else 1/1000, rate := 10 }

/-- The nominal scenario of the spec (§8): rate 10, zero backend latency,
no stop before t = 1 s. -/
def scenarioEnv : Env :=
  { monitorOk := true, writerOk := true, startTime := 0, stopTime := 1
    grabOk := fun _ => true, writeOk := fun _ => true
    tickCost := fun _ => 0, rate := 10 }

/-- Zero backend latency at rate 4000 (interval 250 µs, a quarter of the
1 ms idle sleep), run for 2 ms. -/
def burstEnv : Env :=
  { monitorOk := true, writerOk := true, startTime := 0, stopTime := 1/500
    grabOk := fun _ => true, writeOk := fun _ => true
    tickCost := fun _ => 0, rate := 4000 }

/-- Environment whose every `sct.grab` call fails. -/
def cexEnvGrab : Env :=
  { monitorOk := true, writerOk := true, startTime := 0, stopTime := 100
    grabOk := fun _ => false, writeOk := fun _ => true
    tickCost := fun _ => 0, rate := 10 }

/-- Environment whose every `out.write` call fails. -/
def cexEnvWrite : Env :=
  { monitorOk := true, writerOk := true, startTime := 0, stopTime := 100
    grabOk := fun _ => true, writeOk := fun _ => false
    tickCost := fun _ => 0, rate := 10 }

/-- Environment in which the `cv2.VideoWriter` sink cannot be opened. -/
def cexEnvWriterInit : Env :=
  { monitorOk := true, writerOk := false, startTime := 0, stopTime := 100
    grabOk := fun _ => true, writeOk := fun _ => true
    tickCost := fun _ => 0, rate := 10 }

/-! ## Generic invariant lemma for the loop -/

/-- Induction principle for `loopRun`: any predicate preserved by the
capture-tick transition and by the idle-sleep transition holds of the final
state; moreover a `stopped` result can only be produced by an iteration
that observed the stop flag, and an `errored` result names the failing tick
and its failing oracle. -/
theorem loopRun_inv (I : ℚ) (env : Env) (P : LoopState → Prop)
    (hwrite : ∀ s : LoopState, P s → ¬ env.stopTime ≤ s.time →
      s.deadline ≤ s.time → env.grabOk s.ticks = true → env.writeOk s.ticks = true →
      P { time := s.time + env.tickCost s.ticks
          deadline := updateDeadline s.time s.deadline I
          writes := s.writes ++ [s.time]
          ticks := s.ticks + 1 })
    (hsleep : ∀ s : LoopState, P s → ¬ env.stopTime ≤ s.time →
      ¬ s.deadline ≤ s.time → P { s with time := s.time + sleepQuantum }) :
    ∀ (fuel : ℕ) (s : LoopState), P s →
      P (finalState (loopRun I env fuel s)) ∧
      (∀ s', loopRun I env fuel s = .stopped s' → env.stopTime ≤ s'.time) ∧
      (∀ n s', loopRun I env fuel s = .errored (.captureRead n) s' →
        s'.ticks = n ∧ env.grabOk n = false) ∧
      (∀ n s', loopRun I env fuel s = .errored (.writeErr n) s' →
        s'.ticks = n ∧ env.grabOk n = true ∧ env.writeOk n = false) := by
  intro fuel
  induction fuel with
  | zero =>
    intro s hP
    refine ⟨by simpa [loopRun, finalState] using hP, ?_, ?_, ?_⟩
    · intro s' h
      simp [loopRun] at h
    · intro m s' h
      simp [loopRun] at h
    · intro m s' h
      simp [loopRun] at h
  | succ n ih =>
    intro s hP
    by_cases hstop : env.stopTime ≤ s.time
    · refine ⟨by simpa [loopRun, hstop, finalState] using hP, ?_, ?_, ?_⟩
      · intro s' h
        simp only [loopRun, if_pos hstop, LoopOutcome.stopped.injEq] at h
        exact h ▸ hstop
      · intro _ s' h
        simp [loopRun, hstop] at h
      · intro _ s' h
        simp [loopRun, hstop] at h
    · by_cases hdue : s.deadline ≤ s.time
      · cases hg : env.grabOk s.ticks with
        | false =>
          refine ⟨by simpa [loopRun, hstop, hdue, hg, finalState] using hP, ?_, ?_, ?_⟩
          · intro s' h
            simp [loopRun, hstop, hdue, hg] at h
          · intro m s' h
            simp only [loopRun, if_neg hstop, if_pos hdue, hg, Bool.false_eq_true,
              if_false, LoopOutcome.errored.injEq, LoopErr.captureRead.injEq] at h
            obtain ⟨hm, hs⟩ := h
            subst hs
            exact ⟨hm, hm ▸ hg⟩
          · intro m s' h
            simp [loopRun, hstop, hdue, hg] at h
        | true =>
          cases hw : env.writeOk s.ticks with
          | false =>
            refine ⟨by simpa [loopRun, hstop, hdue, hg, hw, finalState] using hP, ?_, ?_, ?_⟩
            · intro s' h
              simp [loopRun, hstop, hdue, hg, hw] at h
            · intro m s' h
              simp [loopRun, hstop, hdue, hg, hw] at h
            · intro m s' h
              simp only [loopRun, if_neg hstop, if_pos hdue, hg, hw, if_true,
                Bool.false_eq_true, if_false, LoopOutcome.errored.injEq,
                LoopErr.writeErr.injEq] at h
              obtain ⟨hm, hs⟩ := h
              subst hs
              exact ⟨hm, hm ▸ hg, hm ▸ hw⟩
          | true =>
            have step := hwrite s hP hstop hdue hg hw
            have := ih _ step
            simpa only [loopRun, if_neg hstop, if_pos hdue, hg, hw, if_true] using this
      · have step := hsleep s hP hstop hdue
        have := ih _ step
        simpa only [loopRun, if_neg hstop, if_neg hdue] using this

/-- A run of `record_screen` aborts with an error exactly when the loop run
it wraps raises that error. -/
theorem liftLoop_aborted (o : LoopOutcome) (e : LoopErr) (s : LoopState) :
    liftLoop o = .aborted e s ↔ o = .errored e s := by
  cases o <;> simp [liftLoop]

/-! ## The claims -/

/-- C1: In the steady-state loop, whenever a frame is written the loop first
advances `next_deadline` by exactly `target_interval`, and then, if the
current time read at the top of that iteration exceeds the already advanced
`next_deadline` by more than `target_interval`, it sets `next_deadline` to
that current time; in all other cases `next_deadline` is left at the
advanced value.  (record.py lines 44–49.) -/
theorem write_step_deadline (I : ℚ) (env : Env) (fuel : ℕ) (s : LoopState)
    (hstop : ¬ env.stopTime ≤ s.time) (hdue : s.deadline ≤ s.time)
    (hg : env.grabOk s.ticks = true) (hw : env.writeOk s.ticks = true) :
    loopRun I env (fuel + 1) s =
      loopRun I env fuel
        { time := s.time + env.tickCost s.ticks
          deadline := if s.time - (s.deadline + I) > I then s.time else s.deadline + I
          writes := s.writes ++ [s.time]
          ticks := s.ticks + 1 }
  ∧ (s.time - (s.deadline + I) > I → updateDeadline s.time s.deadline I = s.time)
  ∧ (¬ s.time - (s.deadline + I) > I →
      updateDeadline s.time s.deadline I = s.deadline + I) := by
  refine ⟨?_, fun h => ?_, fun h => ?_⟩
  · simp only [loopRun, if_neg hstop, if_pos hdue, hg, hw, if_true, updateDeadline]
  · simp only [updateDeadline, if_pos h]
  · simp only [updateDeadline, if_neg h]

/-- Witness for `write_step_deadline`: the first iteration of the loop in a
benign environment performs exactly the described deadline update. -/
theorem write_step_deadline_witness :
    loopRun (1/10) envSimple 1 (initState envSimple) =
      loopRun (1/10) envSimple 0
        { time := (0:ℚ) + envSimple.tickCost 0
          deadline := if (0:ℚ) - (0 + 1/10) > 1/10 then (0:ℚ) else 0 + 1/10
          writes := [(0:ℚ)]
          ticks := 1 } :=
  (write_step_deadline (1/10) envSimple 0 (initState envSimple)
    (by norm_num [envSimple, initState]) (by norm_num [initState]) rfl rfl).1

/-- C10: The pacing deadline is monotonically non-decreasing: after a write
the new deadline is at least the old one advanced by the (positive)
interval, the resync branch fires only when the current time already
strictly exceeds the advanced deadline, and along any run of the loop the
deadline never moves backwards. -/
theorem deadline_monotone (I : ℚ) (hI : 0 < I) :
    (∀ current deadline : ℚ,
       deadline + I ≤ updateDeadline current deadline I ∧
       deadline < updateDeadline current deadline I)
  ∧ (∀ current deadline : ℚ,
       current - (deadline + I) > I → deadline + I < current)
  ∧ (∀ (env : Env) (fuel : ℕ) (s : LoopState),
       s.deadline ≤ (finalState (loopRun I env fuel s)).deadline) := by
  have key : ∀ current deadline : ℚ, deadline + I ≤ updateDeadline current deadline I := by
    intro c d
    simp only [updateDeadline]
    split
    · rename_i h; linarith
    · linarith
  refine ⟨fun c d => ⟨key c d, lt_of_lt_of_le (by linarith) (key c d)⟩,
    fun c d h => by linarith, ?_⟩
  intro env fuel s
  refine (loopRun_inv I env (fun u => s.deadline ≤ u.deadline) ?_ ?_ fuel s le_rfl).1
  · intro u hu _ _ _ _
    exact le_trans hu (le_trans (by linarith) (key u.time u.deadline))
  · intro u hu _ _
    exact hu

/-- Witness for `deadline_monotone` at interval 1/10. -/
theorem deadline_monotone_witness :
    (0:ℚ) + 1/10 ≤ updateDeadline 5 0 (1/10) ∧ (0:ℚ) < updateDeadline 5 0 (1/10) :=
  (deadline_monotone (1/10) (by norm_num)).1 5 0

/-- C9: The conversion applied before writing is a pure, total pixel-layout
transform that drops the alpha channel: the result of
`cvtColorBGRA2BGR` has the same width and height as the input and its
B, G, R channels equal the input's corresponding channels at every pixel. -/
theorem cvtColor_drops_alpha (img : RawImage) :
    (cvtColorBGRA2BGR img).width = img.width
  ∧ (cvtColorBGRA2BGR img).height = img.height
  ∧ ∀ y x, ((cvtColorBGRA2BGR img).pix y x).b = (img.pix y x).b
      ∧ ((cvtColorBGRA2BGR img).pix y x).g = (img.pix y x).g
      ∧ ((cvtColorBGRA2BGR img).pix y x).r = (img.pix y x).r :=
  ⟨rfl, rfl, fun _ _ => ⟨rfl, rfl, rfl⟩⟩

/-- C7: If the writer sink cannot be opened at startup, `record_screen`
fails with the writer-init error, the capture loop never starts, no frame
is ever written, and no writer resource is held. -/
theorem writer_init_error_fatal (env : Env) (fuel : ℕ)
    (hm : env.monitorOk = true) (hw : env.writerOk = false) :
    record_screen env fuel = .initWriterErr
  ∧ framesWritten (record_screen env fuel) = 0
  ∧ writerOpens (record_screen env fuel) = 0
  ∧ writerCloses (record_screen env fuel) = 0 := by
  have h : record_screen env fuel = .initWriterErr := by
    simp [record_screen, hm, hw]
  rw [h]
  exact ⟨rfl, rfl, rfl, rfl⟩

/-- Witness for `writer_init_error_fatal`: a concrete failing sink. -/
theorem writer_init_error_fatal_witness :
    record_screen cexEnvWriterInit 10 = .initWriterErr
  ∧ framesWritten (record_screen cexEnvWriterInit 10) = 0
  ∧ writerOpens (record_screen cexEnvWriterInit 10) = 0
  ∧ writerCloses (record_screen cexEnvWriterInit 10) = 0 :=
  writer_init_error_fatal cexEnvWriterInit 10 rfl rfl

/-- C8: After the capture region is resolved and the writer opened,
`record_screen` enters the loop with `target_interval = 1 / rate` and
`next_deadline` equal to the clock read at initialization (record.py lines
32–33): the run is exactly a loop run started from that state, and — since
the initial deadline equals the initial clock — the first iteration writes
immediately at the start time and leaves the deadline at
`startTime + 1 / rate`. -/
theorem init_pacing (env : Env) (fuel : ℕ)
    (hm : env.monitorOk = true) (hwo : env.writerOk = true)
    (hrate : 0 < env.rate)
    (hstop : ¬ env.stopTime ≤ env.startTime)
    (hg : env.grabOk 0 = true) (hw : env.writeOk 0 = true) :
    record_screen env fuel =
      liftLoop (loopRun (1 / env.rate) env fuel
        { time := env.startTime, deadline := env.startTime, writes := [], ticks := 0 })
  ∧ loopRun (1 / env.rate) env 1 (initState env) =
      .outOfFuel { time := env.startTime + env.tickCost 0
                   deadline := env.startTime + 1 / env.rate
                   writes := [env.startTime]
                   ticks := 1 } := by
  constructor
  · simp [record_screen, hm, hwo, initState]
  · have hI : 0 < 1 / env.rate := by positivity
    have hcond : ¬ (env.startTime - (env.startTime + 1 / env.rate) > 1 / env.rate) := by
      linarith
    have hupd : updateDeadline env.startTime env.startTime (1 / env.rate) =
        env.startTime + 1 / env.rate := by
      simp only [updateDeadline]
      rw [if_neg hcond]
    simp [loopRun, initState, hstop, hg, hw]
    simp only [← one_div]
    exact hupd

/-- Witness for `init_pacing` in a benign environment. -/
theorem init_pacing_witness :
    record_screen envSimple 10 =
      liftLoop (loopRun (1 / envSimple.rate) envSimple 10
        { time := envSimple.startTime, deadline := envSimple.startTime
          writes := [], ticks := 0 })
  ∧ loopRun (1 / envSimple.rate) envSimple 1 (initState envSimple) =
      .outOfFuel { time := envSimple.startTime + envSimple.tickCost 0
                   deadline := envSimple.startTime + 1 / envSimple.rate
                   writes := [envSimple.startTime]
                   ticks := 1 } :=
  init_pacing envSimple 10 rfl rfl (by norm_num [envSimple])
    (by norm_num [envSimple]) rfl rfl

/-- C3 counterexample: a run whose very first `out.write` raises exits the
loop through the fatal write error, yet `out.release()` — which in
record.py line 54 sits after the loop with no `try/finally` — is never
reached: the writer was opened once and closed zero times, not once. -/
theorem write_error_skips_release :
    record_screen cexEnvWrite 10 =
      .aborted (.writeErr 0) { time := 0, deadline := 0, writes := [], ticks := 0 }
  ∧ writerOpens (record_screen cexEnvWrite 10) = 1
  ∧ writerCloses (record_screen cexEnvWrite 10) = 0 :=
  of_decide_eq_true (by with_unfolding_all rfl)

/-- C3 (amended): exactly one writer is opened per invocation whose
initialization succeeds, and the close runs exactly once on the normal
stop-signal exit path; on an exit caused by an exception escaping the loop
body the writer is opened but never closed, and when initialization fails
nothing is opened or closed. -/
theorem writer_resource_discipline (env : Env) (fuel : ℕ) :
    (∀ s, record_screen env fuel = .finished s →
      writerOpens (record_screen env fuel) = 1 ∧
      writerCloses (record_screen env fuel) = 1)
  ∧ (∀ e s, record_screen env fuel = .aborted e s →
      writerOpens (record_screen env fuel) = 1 ∧
      writerCloses (record_screen env fuel) = 0)
  ∧ (record_screen env fuel = .initCaptureErr ∨
       record_screen env fuel = .initWriterErr →
      writerOpens (record_screen env fuel) = 0 ∧
      writerCloses (record_screen env fuel) = 0) := by
  refine ⟨?_, ?_, ?_⟩
  · intro s h
    rw [h]
    exact ⟨rfl, rfl⟩
  · intro e s h
    rw [h]
    exact ⟨rfl, rfl⟩
  · rintro (h | h) <;> rw [h] <;> exact ⟨rfl, rfl⟩

/-- Witness for `writer_resource_discipline`: a normally stopped run opens
and closes the writer exactly once. -/
theorem writer_resource_discipline_witness :
    writerOpens (record_screen envStop 1) = 1 ∧
    writerCloses (record_screen envStop 1) = 1 :=
  (writer_resource_discipline envStop 1).1
    { time := 0, deadline := 0, writes := [], ticks := 0 }
    (of_decide_eq_true (by with_unfolding_all rfl))

/-- C4 counterexample: a transient capture failure on tick 0 does terminate
the loop — record.py has no handler around `sct.grab` (line 40) — the error
propagates out of `record_screen`, no further tick is attempted, and the
writer is not released. -/
theorem captureRead_kills_loop :
    record_screen cexEnvGrab 10 =
      .aborted (.captureRead 0) { time := 0, deadline := 0, writes := [], ticks := 0 }
  ∧ writerCloses (record_screen cexEnvGrab 10) = 0 :=
  of_decide_eq_true (by with_unfolding_all rfl)

/-- C4 (amended): when the capture call fails on tick N the loop writes no
frame for tick N, terminates immediately, and propagates the capture error
to the controlling context — the invocation aborts having written exactly
one frame per earlier tick (N frames in total) and without closing the
writer. -/
theorem captureRead_aborts (env : Env) (fuel : ℕ) (n : ℕ) (s' : LoopState)
    (h : record_screen env fuel = .aborted (.captureRead n) s') :
    s'.writes.length = n ∧ s'.ticks = n ∧ env.grabOk n = false
  ∧ writerCloses (record_screen env fuel) = 0 := by
  by_cases hm : env.monitorOk
  case neg => simp [record_screen, hm] at h
  by_cases hwo : env.writerOk
  case neg => simp [record_screen, hm, hwo] at h
  have hrs : record_screen env fuel =
      liftLoop (loopRun (1 / env.rate) env fuel (initState env)) := by
    simp [record_screen, hm, hwo]
  have hlift : loopRun (1 / env.rate) env fuel (initState env) =
      .errored (.captureRead n) s' :=
    (liftLoop_aborted _ _ _).mp (hrs.symm.trans h)
  have inv := loopRun_inv (1 / env.rate) env (fun u => u.writes.length = u.ticks)
    (fun u hu _ _ _ _ => by simp [hu]) (fun u hu _ _ => hu)
    fuel (initState env) (by simp [initState])
  have hP : s'.writes.length = s'.ticks := by
    have hfin := inv.1
    rw [hlift] at hfin
    simpa [finalState] using hfin
  have herr := inv.2.2.1 n s' hlift
  refine ⟨hP.trans herr.1, herr.1, herr.2, ?_⟩
  rw [h]
  rfl

/-- Witness for `captureRead_aborts` at the concrete failing-grab run. -/
theorem captureRead_aborts_witness :
    ({ time := 0, deadline := 0, writes := [], ticks := 0 } : LoopState).writes.length = 0
  ∧ ({ time := 0, deadline := 0, writes := [], ticks := 0 } : LoopState).ticks = 0
  ∧ cexEnvGrab.grabOk 0 = false
  ∧ writerCloses (record_screen cexEnvGrab 10) = 0 :=
  captureRead_aborts cexEnvGrab 10 0
    { time := 0, deadline := 0, writes := [], ticks := 0 }
    (of_decide_eq_true (by with_unfolding_all rfl))

/-- C5: The stop flag is polled once at the top of every iteration
(`while not stop_flag.is_set()`, record.py line 35).  Every write happens
at an iteration whose poll still read the flag as unset, so every write
time precedes the stop time; once the flag is set the loop exits at a time
at most one tick-or-sleep bound `C` past the stop time; and the release on
the normal exit happens at the final loop time, which no write time
exceeds — no frame is written after the writer is closed. -/
theorem stop_halts_loop (I : ℚ) (env : Env) (fuel : ℕ) (s : LoopState) (C : ℚ)
    (hcostC : ∀ n, env.tickCost n ≤ C) (hsleepC : sleepQuantum ≤ C)
    (hcost0 : ∀ n, 0 ≤ env.tickCost n)
    (hw : ∀ w ∈ s.writes, w < env.stopTime)
    (hwt : ∀ w ∈ s.writes, w ≤ s.time)
    (ht : s.time ≤ env.stopTime + C) :
    (∀ w ∈ (finalState (loopRun I env fuel s)).writes, w < env.stopTime)
  ∧ (∀ s', loopRun I env fuel s = .stopped s' →
      env.stopTime ≤ s'.time ∧ s'.time ≤ env.stopTime + C ∧
      ∀ w ∈ s'.writes, w ≤ s'.time) := by
  have inv := loopRun_inv I env
    (fun u => (∀ w ∈ u.writes, w < env.stopTime) ∧
      (∀ w ∈ u.writes, w ≤ u.time) ∧ u.time ≤ env.stopTime + C)
    (by
      intro u hu hnstop _ _ _
      obtain ⟨h1, h2, h3⟩ := hu
      have hnow : u.time < env.stopTime := lt_of_not_le hnstop
      have hc0 := hcost0 u.ticks
      have hcC := hcostC u.ticks
      refine ⟨?_, ?_, by dsimp only; linarith⟩
      · intro w hw'
        rcases List.mem_append.mp hw' with hmem | hmem
        · exact h1 w hmem
        · rw [List.mem_singleton.mp hmem]
          exact hnow
      · intro w hw'
        rcases List.mem_append.mp hw' with hmem | hmem
        · have := h2 w hmem
          dsimp only
          linarith
        · rw [List.mem_singleton.mp hmem]
          dsimp only
          linarith)
    (by
      intro u hu hnstop _
      obtain ⟨h1, h2, h3⟩ := hu
      have hnow : u.time < env.stopTime := lt_of_not_le hnstop
      have hsq : (0:ℚ) < sleepQuantum := by norm_num [sleepQuantum]
      exact ⟨h1, fun w hw' => by dsimp only; linarith [h2 w hw'], by dsimp only; linarith⟩)
    fuel s ⟨hw, hwt, ht⟩
  refine ⟨inv.1.1, fun s' hs' => ?_⟩
  have hstop' := inv.2.1 s' hs'
  have hPfin := inv.1
  rw [hs'] at hPfin
  simp only [finalState] at hPfin
  exact ⟨hstop', hPfin.2.2, hPfin.2.1⟩

/-- Witness for `stop_halts_loop`: with the flag already set at start, the
loop exits at once, within the bound, having written nothing. -/
theorem stop_halts_loop_witness :
    envStop.stopTime ≤ (0:ℚ) ∧ (0:ℚ) ≤ envStop.stopTime + 1 ∧
    ∀ w ∈ ([] : List ℚ), w ≤ (0:ℚ) :=
  (stop_halts_loop (1/10) envStop 1 (initState envStop) 1
    (fun _ => by norm_num [envStop]) (by norm_num [sleepQuantum])
    (fun _ => by norm_num [envStop])
    (fun w hw => by simp [initState] at hw)
    (fun w hw => by simp [initState] at hw)
    (by norm_num [envStop, initState])).2
    { time := 0, deadline := 0, writes := [], ticks := 0 }
    (of_decide_eq_true (by with_unfolding_all rfl))

/-- C2: When every capture+write tick takes at least some positive time
`c`, consecutive write times along any run are at least `c` apart
(`Chain'`), whatever stalls occur — the minimum-floor property.  In the
spec's stall scenario `stallEnv` (rate 10, tick 0 delayed 500 ms = five
intervals, other ticks at the nominal 1 ms): after two ticks the deadline
has been reset to 1/2, the post-delay current time — not advanced five
intervals into the past — and the full run to the 1 s stop writes only 7
frames, fewer than the naive D×R = 10: no burst of backlogged frames is
emitted. -/
theorem no_burst_floor (I c : ℚ) (env : Env) (fuel : ℕ) (s : LoopState)
    (hc : 0 < c) (hcost : ∀ n, c ≤ env.tickCost n)
    (hchain : s.writes.Chain' (fun a b => a + c ≤ b))
    (hwt : ∀ w ∈ s.writes, w + c ≤ s.time) :
    (finalState (loopRun I env fuel s)).writes.Chain' (fun a b => a + c ≤ b)
  ∧ loopRun (1/10) stallEnv 2 (initState stallEnv) =
      .outOfFuel { time := 501/1000, deadline := 1/2, writes := [0, 1/2], ticks := 2 }
  ∧ loopRun (1/10) stallEnv 600 (initState stallEnv) =
      .stopped { time := 1, deadline := 1
                 writes := [0, 1/2, 501/1000, 3/5, 7/10, 4/5, 9/10], ticks := 7 }
  ∧ (finalState (loopRun (1/10) stallEnv 600 (initState stallEnv))).writes.length < 10 := by
  refine ⟨?_, of_decide_eq_true (by with_unfolding_all rfl),
    of_decide_eq_true (by with_unfolding_all rfl),
    of_decide_eq_true (by with_unfolding_all rfl)⟩
  have hsq : (0:ℚ) < sleepQuantum := by norm_num [sleepQuantum]
  exact (loopRun_inv I env
    (fun u => u.writes.Chain' (fun a b => a + c ≤ b) ∧ ∀ w ∈ u.writes, w + c ≤ u.time)
    (by
      intro u hu _ _ _ _
      obtain ⟨h1, h2⟩ := hu
      have hcn := hcost u.ticks
      constructor
      · rw [List.chain'_append]
        refine ⟨h1, List.chain'_singleton _, ?_⟩
        intro x hx y hy
        rw [List.head?_cons, Option.mem_some_iff] at hy
        rw [← hy]
        exact h2 x (List.mem_of_mem_getLast? hx)
      · intro w hw'
        rcases List.mem_append.mp hw' with hmem | hmem
        · have := h2 w hmem
          dsimp only
          linarith
        · rw [List.mem_singleton.mp hmem]
          dsimp only
          linarith)
    (by
      intro u hu _ _
      obtain ⟨h1, h2⟩ := hu
      exact ⟨h1, fun w hw' => by dsimp only; linarith [h2 w hw']⟩)
    fuel s ⟨hchain, hwt⟩).1.1

/-- Witness for `no_burst_floor` on the stall scenario itself, with floor
`c = 1/1000`, the nominal tick cost. -/
theorem no_burst_floor_witness :
    (finalState (loopRun (1/10) stallEnv 600 (initState stallEnv))).writes.Chain'
      (fun a b => a + 1/1000 ≤ b)
  ∧ loopRun (1/10) stallEnv 2 (initState stallEnv) =
      .outOfFuel { time := 501/1000, deadline := 1/2, writes := [0, 1/2], ticks := 2 }
  ∧ loopRun (1/10) stallEnv 600 (initState stallEnv) =
      .stopped { time := 1, deadline := 1
                 writes := [0, 1/2, 501/1000, 3/5, 7/10, 4/5, 9/10], ticks := 7 }
  ∧ (finalState (loopRun (1/10) stallEnv 600 (initState stallEnv))).writes.length < 10 :=
  no_burst_floor (1/10) (1/1000) stallEnv 600 (initState stallEnv)
    (by norm_num)
    (fun n => by
      dsimp only [stallEnv]
      split <;> norm_num)
    (by simp [initState])
    (fun w hw => by simp [initState] at hw)

/-- C6 counterexample: at target rate R = 4000 (interval 250 µs, below the
1 ms idle-sleep granularity of record.py line 52) with zero backend latency
over D = 2 ms, the loop writes 3 frames while D×R = 8 — off by more than
one frame of rounding, refuting the claim for arbitrary R > 0. -/
theorem frame_count_fails_at_high_rate :
    record_screen burstEnv 10 =
      .finished { time := 1/500, deadline := 1/800
                  writes := [0, 1/1000, 1/1000], ticks := 3 }
  ∧ framesWritten (record_screen burstEnv 10) = 3
  ∧ ((1:ℚ)/500) * 4000 - 1 > 3 :=
  of_decide_eq_true (by with_unfolding_all rfl)

/-- C6 (amended): for every target interval `I` at least the 1 ms idle
sleep (that is, every rate R ≤ 1000) and every zero-backend-latency run of
duration D ending in a stop, the number N of frames written satisfies
D − sleepQuantum < N·I < D + I, i.e. N is within one frame of D×R; in
particular a rate-10 run of duration 1 s writes exactly 10 frames. -/
theorem paced_frame_count (I D : ℚ) (env : Env) (fuel : ℕ) (s' : LoopState)
    (hIs : sleepQuantum ≤ I)
    (hcost : ∀ n, env.tickCost n = 0)
    (hstop : env.stopTime = env.startTime + D)
    (hD : 0 < D)
    (hrun : loopRun I env fuel (initState env) = .stopped s') :
    D - sleepQuantum < (s'.writes.length : ℚ) * I
  ∧ (s'.writes.length : ℚ) * I < D + I
  ∧ (I = 1/10 → D = 1 → s'.writes.length = 10) := by
  have hsq : (0:ℚ) < sleepQuantum := by norm_num [sleepQuantum]
  have hI : 0 < I := lt_of_lt_of_le hsq hIs
  have inv := loopRun_inv I env
    (fun u => u.time - u.deadline < sleepQuantum ∧
      u.deadline = env.startTime + (u.writes.length : ℚ) * I ∧
      u.deadline < env.stopTime + I)
    (by
      intro u hu hnstop hdue _ _
      obtain ⟨h1, h2, h3⟩ := hu
      have hnow : u.time < env.stopTime := lt_of_not_le hnstop
      have hcond : ¬ (u.time - (u.deadline + I) > I) := by linarith
      have hupd : updateDeadline u.time u.deadline I = u.deadline + I := by
        simp only [updateDeadline]
        rw [if_neg hcond]
      have hc0 := hcost u.ticks
      refine ⟨?_, ?_, ?_⟩
      · dsimp only
        rw [hupd, hc0]
        linarith
      · dsimp only
        rw [hupd, h2]
        simp only [List.length_append, List.length_singleton]
        push_cast
        ring
      · dsimp only
        rw [hupd]
        linarith)
    (by
      intro u hu hnstop hdue
      obtain ⟨h1, h2, h3⟩ := hu
      have : u.time < u.deadline := lt_of_not_le hdue
      exact ⟨by dsimp only; linarith, h2, h3⟩)
    fuel (initState env)
    ⟨by simp [initState]; linarith, by simp [initState], by
      simp only [initState, hstop]; linarith⟩
  have hstop' : env.stopTime ≤ s'.time := inv.2.1 s' hrun
  have hPfin := inv.1
  rw [hrun] at hPfin
  simp only [finalState] at hPfin
  obtain ⟨h1, h2, h3⟩ := hPfin
  have lower : D - sleepQuantum < (s'.writes.length : ℚ) * I := by
    rw [hstop] at hstop'
    have : env.startTime + (s'.writes.length : ℚ) * I = s'.deadline := h2.symm
    linarith
  have upper : (s'.writes.length : ℚ) * I < D + I := by
    rw [hstop, h2] at h3
    linarith
  refine ⟨lower, upper, fun hI10 hD1 => ?_⟩
  rw [hI10, hD1] at lower upper
  have hlow : (999:ℚ)/1000 < (s'.writes.length : ℚ) * (1/10) := by
    rw [show (1:ℚ) - sleepQuantum = 999/1000 by norm_num [sleepQuantum]] at lower
    exact lower
  have hup : (s'.writes.length : ℚ) < 11 := by linarith
  have hlo : (9:ℚ) < (s'.writes.length : ℚ) := by linarith
  have hup' : s'.writes.length < 11 := by exact_mod_cast hup
  have hlo' : 9 < s'.writes.length := by exact_mod_cast hlo
  omega

/-- Witness for `paced_frame_count` on the spec's nominal scenario:
rate 10, zero backend latency, stop at 1 s — exactly 10 frames. -/
theorem paced_frame_count_witness :
    (1:ℚ) - sleepQuantum <
      ((({ time := 1, deadline := 1
           writes := [0, 1/10, 1/5, 3/10, 2/5, 1/2, 3/5, 7/10, 4/5, 9/10]
           ticks := 10 } : LoopState).writes.length : ℚ)) * (1/10)
  ∧ ((({ time := 1, deadline := 1
         writes := [0, 1/10, 1/5, 3/10, 2/5, 1/2, 3/5, 7/10, 4/5, 9/10]
         ticks := 10 } : LoopState).writes.length : ℚ)) * (1/10) < 1 + 1/10
  ∧ ((1:ℚ)/10 = 1/10 → (1:ℚ) = 1 →
      ({ time := 1, deadline := 1
         writes := [0, 1/10, 1/5, 3/10, 2/5, 1/2, 3/5, 7/10, 4/5, 9/10]
         ticks := 10 } : LoopState).writes.length = 10) :=
  paced_frame_count (1/10) 1 scenarioEnv 1020
    { time := 1, deadline := 1
      writes := [0, 1/10, 1/5, 3/10, 2/5, 1/2, 3/5, 7/10, 4/5, 9/10], ticks := 10 }
    (by norm_num [sleepQuantum]) (fun _ => rfl) (by norm_num [scenarioEnv])
    (by norm_num)
    (of_decide_eq_true (by with_unfolding_all rfl))

end Record
